import Mathlib

/-
  Verification development for the `visualsystem` repository
  (feed-forward layered model of early visual processing).

  Shallow embedding conventions:
  * Python `float` arithmetic on the small integer ratios and thresholds used
    by the code is modelled with exact rationals `ℚ`; the two irrational
    constants `math.tan(math.radians(27))` and `math.tan(math.radians(62))`
    are modelled by the exact dyadic values of the corresponding IEEE-754
    doubles computed by the Python runtime.
  * `math`-level square roots (`** 0.5`) are modelled over `ℝ` with
    `Real.sqrt` for the spec-level tolerance function, and by an equivalent
    decidable rational test at the cell level.
  * Fallible code (Python exceptions: `ZeroDivisionError`, `UnboundLocalError`,
    `IndexError`, `TypeError` on float/complex comparison) returns `Option`.
  * Python list indexing semantics (negative indices wrap once) is modelled
    by `pythonGet`.
-/

namespace VisualSystem

/-! ## Tolerance functions (src/cells/_base.py) -/

/-- Linear tolerance function, `tolerance_line` of `src/cells/_base.py`:
`if x > x1: return y2 / (1 - x1) * x + y2 / (x1 - 1) * x1 else: return -1`. -/
def tolerance_line (x x1 y2 : ℚ) : ℚ :=
  if x > x1 then y2 / (1 - x1) * x + y2 / (x1 - 1) * x1 else -1

/-- Real-valued reading of `tolerance_line` of `src/cells/_base.py`, used to
compare against the elliptical tolerance function over `ℝ`. -/
noncomputable def tolerance_lineR (x x1 y2 : ℝ) : ℝ :=
  if x > x1 then y2 / (1 - x1) * x + y2 / (x1 - 1) * x1 else -1

/-- Elliptical tolerance function, `tolerance_ellipse` of `src/cells/_base.py`:
`if x > x1: return y2 * (1 - (x - 1) ** 2 / (x1 - 1) ** 2) ** 0.5 else: return -1`.
Python `** 0.5` on a non-negative float is the square root; the argument is
non-negative whenever `x1 ≤ x ≤ 1`, the whole range on which cells evaluate it. -/
noncomputable def tolerance_ellipse (x x1 y2 : ℝ) : ℝ :=
  if x > x1 then y2 * Real.sqrt (1 - (x - 1) ^ 2 / (x1 - 1) ^ 2) else -1

/-- Decidable rational test for `s ≤ y2 * Real.sqrt e` (`e ≥ 0` intended),
used to embed the cell-level elliptical comparison executably. -/
def leMulSqrt (s y2 e : ℚ) : Bool :=
  if 0 ≤ y2 then
    if s ≤ 0 then true else decide (s ^ 2 ≤ y2 ^ 2 * e)
  else
    if 0 < s then false else decide (y2 ^ 2 * e ≤ s ^ 2)

/-- The decidable test `leMulSqrt` agrees with the real inequality
`s ≤ y2 * √e` whenever `0 ≤ e`. -/
theorem leMulSqrt_iff (s y2 e : ℚ) (he : (0 : ℚ) ≤ e) :
    leMulSqrt s y2 e = true ↔ (s : ℝ) ≤ (y2 : ℝ) * Real.sqrt (e : ℝ) := by
  have heR : (0 : ℝ) ≤ (e : ℝ) := by exact_mod_cast he
  have hsq : Real.sqrt ((y2 : ℝ) ^ 2 * (e : ℝ)) = |(y2 : ℝ)| * Real.sqrt (e : ℝ) := by
    rw [Real.sqrt_mul (sq_nonneg _), Real.sqrt_sq_eq_abs]
  unfold leMulSqrt
  by_cases hy : (0 : ℚ) ≤ y2
  · have hyR : (0 : ℝ) ≤ (y2 : ℝ) := by exact_mod_cast hy
    rw [if_pos hy]
    by_cases hs : s ≤ 0
    · have hsR : (s : ℝ) ≤ 0 := by exact_mod_cast hs
      simp only [if_pos hs, true_iff]
      exact le_trans hsR (mul_nonneg hyR (Real.sqrt_nonneg _))
    · have hsR : (0 : ℝ) < (s : ℝ) := by
        push_neg at hs; exact_mod_cast hs
      simp only [if_neg hs, decide_eq_true_eq]
      rw [show (y2 : ℝ) * Real.sqrt (e : ℝ) = Real.sqrt ((y2 : ℝ) ^ 2 * (e : ℝ)) by
        rw [hsq, abs_of_nonneg hyR]]
      rw [Real.le_sqrt hsR.le (by positivity)]
      exact ⟨fun h => by exact_mod_cast h, fun h => by exact_mod_cast h⟩
  · have hyR : (y2 : ℝ) < 0 := by
      push_neg at hy; exact_mod_cast hy
    rw [if_neg hy]
    by_cases hs : (0 : ℚ) < s
    · have hsR : (0 : ℝ) < (s : ℝ) := by exact_mod_cast hs
      simp only [if_pos hs, Bool.false_eq_true, false_iff, not_le]
      calc (y2 : ℝ) * Real.sqrt (e : ℝ) ≤ 0 :=
            mul_nonpos_of_nonpos_of_nonneg hyR.le (Real.sqrt_nonneg _)
        _ < (s : ℝ) := hsR
    · have hsR : (s : ℝ) ≤ 0 := by
        push_neg at hs; exact_mod_cast hs
      simp only [if_neg hs, decide_eq_true_eq]
      have hrw : ((s : ℝ) ≤ (y2 : ℝ) * Real.sqrt (e : ℝ)) ↔
          (-(y2 : ℝ)) * Real.sqrt (e : ℝ) ≤ -(s : ℝ) := by
        constructor <;> intro h <;> nlinarith [Real.sqrt_nonneg (e : ℝ)]
      rw [hrw, show (-(y2 : ℝ)) * Real.sqrt (e : ℝ) = Real.sqrt ((y2 : ℝ) ^ 2 * (e : ℝ)) by
        rw [hsq, abs_of_neg hyR]]
      rw [Real.sqrt_le_left (by linarith), neg_sq]
      constructor <;> intro h <;> exact_mod_cast h

/-- The linear tolerance at `x = 1` is exactly `y2` when `x1 < 1`. -/
theorem tolerance_lineR_at_one (x1 y2 : ℝ) (h : x1 < 1) : tolerance_lineR 1 x1 y2 = y2 := by
  unfold tolerance_lineR
  rw [if_pos h]
  have hne : (1 : ℝ) - x1 ≠ 0 := by intro hc; rw [sub_eq_zero] at hc; exact absurd hc.symm h.ne
  have hne' : x1 - 1 ≠ 0 := by intro hc; rw [sub_eq_zero] at hc; exact absurd hc h.ne
  field_simp
  ring

/-- The elliptical tolerance at `x = 1` is exactly `y2` when `x1 < 1`. -/
theorem tolerance_ellipse_at_one (x1 y2 : ℝ) (h : x1 < 1) : tolerance_ellipse 1 x1 y2 = y2 := by
  unfold tolerance_ellipse
  rw [if_pos h]
  norm_num [Real.sqrt_one]

/-- On the open interval `(x1, 1)` the elliptical tolerance lies strictly ABOVE
the linear one: the quarter-ellipse arc is concave and sits above its chord. -/
theorem line_lt_ellipse (x1 y2 x : ℝ) (h1 : x1 < 1) (hy : 0 < y2)
    (hx : x1 < x) (hx1 : x < 1) :
    tolerance_lineR x x1 y2 < tolerance_ellipse x x1 y2 := by
  unfold tolerance_lineR tolerance_ellipse
  rw [if_pos hx, if_pos hx]
  have h10 : (0 : ℝ) < 1 - x1 := by linarith
  have hA : y2 / (1 - x1) * x + y2 / (x1 - 1) * x1 = y2 * (x - x1) / (1 - x1) := by
    have hne : (1 : ℝ) - x1 ≠ 0 := h10.ne'
    have hne' : x1 - 1 ≠ 0 := by intro hc; rw [sub_eq_zero] at hc; exact absurd hc h1.ne
    field_simp
    ring
  rw [hA]
  have hApos : 0 < y2 * (x - x1) / (1 - x1) :=
    div_pos (mul_pos hy (by linarith)) h10
  have hcore : (x - x1) ^ 2 < (1 - x1) ^ 2 - (1 - x) ^ 2 := by
    nlinarith [mul_pos (sub_pos.mpr hx) (sub_pos.mpr hx1)]
  have he : 1 - (x - 1) ^ 2 / (x1 - 1) ^ 2 = ((1 - x1) ^ 2 - (1 - x) ^ 2) / (1 - x1) ^ 2 := by
    have hne : (1 : ℝ) - x1 ≠ 0 := h10.ne'
    have hsq : (x1 - 1) ^ 2 = (1 - x1) ^ 2 := by ring
    rw [hsq]
    field_simp
    ring
  have hkey : (y2 * (x - x1) / (1 - x1)) ^ 2 <
      y2 ^ 2 * (1 - (x - 1) ^ 2 / (x1 - 1) ^ 2) := by
    rw [he, div_pow, ← mul_div_assoc]
    rw [div_lt_div_iff (by positivity) (by positivity)]
    have hmul : (y2 * (x - x1)) ^ 2 < y2 ^ 2 * ((1 - x1) ^ 2 - (1 - x) ^ 2) := by
      have := mul_lt_mul_of_pos_left hcore (show (0 : ℝ) < y2 ^ 2 by positivity)
      nlinarith [this]
    exact mul_lt_mul_of_pos_right hmul (by positivity)
  have h2 : y2 * (x - x1) / (1 - x1) <
      Real.sqrt (y2 ^ 2 * (1 - (x - 1) ^ 2 / (x1 - 1) ^ 2)) :=
    (Real.lt_sqrt hApos.le).mpr hkey
  rwa [Real.sqrt_mul (sq_nonneg y2), Real.sqrt_sq hy.le] at h2

/-- Claim C4: for `x1 < 1`, the linear tolerance returns the negative sentinel
`-1` whenever `x ≤ x1`; for `x > x1` it equals `y2 * (x - x1) / (1 - x1)`,
which grows linearly in `x` with slope `y2 / (1 - x1)` and equals `y2` exactly
at `x = 1`. -/
theorem c4_tolerance_line_shape (x1 y2 : ℚ) (h : x1 < 1) :
    (∀ x, x ≤ x1 → tolerance_line x x1 y2 = -1) ∧
    ((-1 : ℚ) < 0) ∧
    (∀ x, x1 < x → tolerance_line x x1 y2 = y2 * (x - x1) / (1 - x1)) ∧
    tolerance_line 1 x1 y2 = y2 ∧
    (∀ x y, x1 < x → x1 < y →
      tolerance_line y x1 y2 - tolerance_line x x1 y2 = y2 / (1 - x1) * (y - x)) := by
  have hne : (1 : ℚ) - x1 ≠ 0 := by
    intro hc; rw [sub_eq_zero] at hc; exact absurd hc.symm h.ne
  have hne' : x1 - 1 ≠ 0 := by
    intro hc; rw [sub_eq_zero] at hc; exact absurd hc h.ne
  refine ⟨fun x hx => ?_, by norm_num, fun x hx => ?_, ?_, fun x y hx hy => ?_⟩
  · unfold tolerance_line
    rw [if_neg (not_lt.mpr hx)]
  · unfold tolerance_line
    rw [if_pos hx]
    field_simp
    ring
  · unfold tolerance_line
    rw [if_pos h]
    field_simp
    ring
  · unfold tolerance_line
    rw [if_pos hx, if_pos hy]
    field_simp
    ring

/-- Claim C4 witness at `x1 = 1/2`, `y2 = 3`. -/
theorem c4_tolerance_line_shape_witness :
    (1 / 2 : ℚ) < 1 ∧
    ((∀ x, x ≤ (1 / 2 : ℚ) → tolerance_line x (1 / 2) 3 = -1) ∧
     ((-1 : ℚ) < 0) ∧
     (∀ x, (1 / 2 : ℚ) < x → tolerance_line x (1 / 2) 3 = 3 * (x - 1 / 2) / (1 - 1 / 2)) ∧
     tolerance_line 1 (1 / 2) 3 = 3 ∧
     (∀ x y, (1 / 2 : ℚ) < x → (1 / 2 : ℚ) < y →
       tolerance_line y (1 / 2) 3 - tolerance_line x (1 / 2) 3 = 3 / (1 - 1 / 2) * (y - x))) :=
  ⟨by with_unfolding_all decide, c4_tolerance_line_shape (1 / 2) 3 (by with_unfolding_all decide)⟩

/-- Claim C8 counterexample: at `x1 = 0`, `y2 = 1` there is no right-neighborhood
`(x1, x1 + d)` on which the elliptical tolerance is lower-or-equal than the
linear one; the ellipse arc is strictly above the chord near `x1`. -/
theorem c8_counterexample :
    ¬ ∃ d : ℝ, 0 < d ∧ ∀ x : ℝ, 0 < x → x < 0 + d →
      tolerance_ellipse x 0 1 ≤ tolerance_lineR x 0 1 := by
  rintro ⟨d, hd, h⟩
  set x := min (d / 2) (1 / 2) with hxdef
  have hx0 : (0 : ℝ) < x := lt_min (by linarith) (by norm_num)
  have hxd : x < 0 + d := by
    have := min_le_left (d / 2) (1 / 2)
    rw [hxdef]
    simp only [zero_add]
    calc min (d / 2) (1 / 2) ≤ d / 2 := min_le_left _ _
      _ < d := by linarith
  have hx1 : x < 1 := by
    have := min_le_right (d / 2) (1 / 2)
    calc x ≤ 1 / 2 := this
      _ < 1 := by norm_num
  have hlt := line_lt_ellipse 0 1 x (by norm_num) (by norm_num) hx0 hx1
  have hle := h x hx0 hxd
  linarith

/-- Claim C8 (amended): for `0 ≤ x1 < 1` and `y2 > 0`, the elliptical tolerance
is strictly MORE permissive (strictly higher) than the linear one on the whole
open interval `(x1, 1)`, and the two converge to the same endpoint value `y2`
at `x = 1`. -/
theorem c8_amended_ellipse_above_line (x1 y2 : ℝ) (h0 : 0 ≤ x1) (h1 : x1 < 1)
    (hy : 0 < y2) :
    (∀ x, x1 < x → x < 1 → tolerance_lineR x x1 y2 < tolerance_ellipse x x1 y2) ∧
    tolerance_lineR 1 x1 y2 = y2 ∧ tolerance_ellipse 1 x1 y2 = y2 :=
  ⟨fun x hx hx1 => line_lt_ellipse x1 y2 x h1 hy hx hx1,
   tolerance_lineR_at_one x1 y2 h1, tolerance_ellipse_at_one x1 y2 h1⟩

/-- Claim C8 (amended) witness at `x1 = 0`, `y2 = 1`. -/
theorem c8_amended_ellipse_above_line_witness :
    ((0 : ℝ) ≤ 0 ∧ (0 : ℝ) < 1 ∧ (0 : ℝ) < 1) ∧
    ((∀ x : ℝ, 0 < x → x < 1 → tolerance_lineR x 0 1 < tolerance_ellipse x 0 1) ∧
     tolerance_lineR 1 0 1 = 1 ∧ tolerance_ellipse 1 0 1 = 1) :=
  ⟨⟨le_refl 0, zero_lt_one, zero_lt_one⟩,
   c8_amended_ellipse_above_line 0 1 (le_refl 0) zero_lt_one zero_lt_one⟩

/-! ## Receptive-field geometry (src/structures/_base.py) -/

/-- Row-major list of the pixel coordinates of a `size × size` window,
the iteration order of `for i in range(size): for j in range(size)`. -/
def windowList (size : ℕ) : List (ℕ × ℕ) :=
  (List.range size).product (List.range size)

/-- The exact IEEE-754 double value of `math.tan(math.radians(27))`
(`0x1.04e0850c1dd5cp-1`), the constant `k1` of
`get_simple_pvc_receptive_field`. -/
def k1 : ℚ := 1147349312239447 / 2251799813685248

/-- The exact IEEE-754 double value of `math.tan(math.radians(62))`
(`0x1.e1774a2562592p+0`), the constant `k2` of
`get_simple_pvc_receptive_field`. -/
def k2 : ℚ := 4235019504259785 / 2251799813685248

/-- The window "center" index used by `get_simple_pvc_receptive_field`:
`center = size//2+1` (NOT `size//2`: for odd `size` this is one more than the
true center index). -/
def pvcCenter (size : ℕ) : ℕ := size / 2 + 1

/-- The slope `(center - i) / (j - center)` computed for window pixel `(i, j)`
(Python float division of two ints, modelled as exact rational division; the
source only evaluates it when `j ≠ center`). -/
def pvcSlope (size : ℕ) (i j : ℕ) : ℚ :=
  ((pvcCenter size : ℚ) - i) / ((j : ℚ) - pvcCenter size)

/-- Whether window pixel `ij` is appended to `on_region_input_positions` by
`get_simple_pvc_receptive_field` for orientation tag `t`.  For `vertical` the
whole central column is on-region; for the other three tags a pixel in the
central column is appended only when it is the (shifted) center itself, and a
pixel with `j ≠ center` is classified by its slope band. -/
def pvcOnPred (t : String) (size : ℕ) (ij : ℕ × ℕ) : Bool :=
  let c := pvcCenter size
  let sl := pvcSlope size ij.1 ij.2
  if t = "vertical" then
    decide (ij.2 = c ∨ (ij.2 ≠ c ∧ (k2 ≤ sl ∨ sl ≤ -k2)))
  else if t = "horizontal" then
    decide ((ij.2 = c ∧ ij.1 = c) ∨ (ij.2 ≠ c ∧ (-k1 ≤ sl ∧ sl ≤ k1)))
  else if t = "left_inclined" then
    decide ((ij.2 = c ∧ ij.1 = c) ∨ (ij.2 ≠ c ∧ (-k2 ≤ sl ∧ sl ≤ -k1)))
  else if t = "right_inclined" then
    decide ((ij.2 = c ∧ ij.1 = c) ∨ (ij.2 ≠ c ∧ (k1 ≤ sl ∧ sl ≤ k2)))
  else
    false

/-- Whether window pixel `ij` is appended to `off_region_input_positions` by
`get_simple_pvc_receptive_field` for orientation tag `t` (the final `else`
branch of each orientation; pixels of the central column never reach it). -/
def pvcOffPred (t : String) (size : ℕ) (ij : ℕ × ℕ) : Bool :=
  let c := pvcCenter size
  let sl := pvcSlope size ij.1 ij.2
  if t = "vertical" then
    decide (ij.2 ≠ c ∧ ¬(k2 ≤ sl ∨ sl ≤ -k2))
  else if t = "horizontal" then
    decide (ij.2 ≠ c ∧ ¬(-k1 ≤ sl ∧ sl ≤ k1))
  else if t = "left_inclined" then
    decide (ij.2 ≠ c ∧ ¬(-k2 ≤ sl ∧ sl ≤ -k1))
  else if t = "right_inclined" then
    decide (ij.2 ≠ c ∧ ¬(k1 ≤ sl ∧ sl ≤ k2))
  else
    false

/-- Translation of a window pixel to an absolute position:
`np.array((i, j)) - field_center + cell_position` with
`field_center = (center, center)`. -/
def pvcTranslate (size : ℕ) (pos : ℤ × ℤ) (ij : ℕ × ℕ) : ℤ × ℤ :=
  ((ij.1 : ℤ) - pvcCenter size + pos.1, (ij.2 : ℤ) - pvcCenter size + pos.2)

/-- The oriented-field generator `get_simple_pvc_receptive_field` of
`src/structures/_base.py`: returns the (on-region, off-region) absolute
position lists for a `size × size` window at `pos`.  An unknown orientation
tag falls through every `elif` and returns two empty lists. -/
def get_simple_pvc_receptive_field (size : ℕ) (pos : ℤ × ℤ) (t : String) :
    List (ℤ × ℤ) × List (ℤ × ℤ) :=
  (((windowList size).filter (pvcOnPred t size)).map (pvcTranslate size pos),
   ((windowList size).filter (pvcOffPred t size)).map (pvcTranslate size pos))

/-- Classification of a pixel of the `(2s+1) × (2s+1)` figure drawn by
`get_csarf`: `1` for the inner (center) disk, `-1` for the surround annulus,
`0` outside.  The two filled `cv2.circle` calls are modelled as discrete
closed disks of radii `r` and `s` about the figure center `(s, s)`. -/
def csarfClass (r s : ℕ) (ij : ℕ × ℕ) : ℤ :=
  let d2 : ℤ := ((ij.1 : ℤ) - s) ^ 2 + ((ij.2 : ℤ) - s) ^ 2
  if d2 ≤ (r : ℤ) ^ 2 then 1 else if d2 ≤ (s : ℤ) ^ 2 then -1 else 0

/-- The center–surround generator `get_csarf` of `src/structures/_base.py`:
returns the (center, surround) absolute position lists for receptive-field
shape `(center_radius, surround_radius)` centered at `pos`. -/
def get_csarf (rf : ℕ × ℕ) (pos : ℤ × ℤ) : List (ℤ × ℤ) × List (ℤ × ℤ) :=
  let r := rf.1
  let s := rf.2
  let w := windowList (2 * s + 1)
  ((w.filter (fun ij => csarfClass r s ij == 1)).map
      (fun ij => ((ij.1 : ℤ) - s + pos.1, (ij.2 : ℤ) - s + pos.2)),
   (w.filter (fun ij => csarfClass r s ij == -1)).map
      (fun ij => ((ij.1 : ℤ) - s + pos.1, (ij.2 : ℤ) - s + pos.2)))

/-- Input positions resolved by `SimplePVCBinaryLayer._create_cells` for the
cell at grid position `(i, j)`: the geometry generator is called with
`center_position = np.array((i, j)) + np.full(2, receptive_field_size//2)`. -/
def simplePVCLayerWiring (size : ℕ) (i j : ℕ) (t : String) :
    List (ℤ × ℤ) × List (ℤ × ℤ) :=
  get_simple_pvc_receptive_field size ((i : ℤ) + size / 2, (j : ℤ) + size / 2) t

/-- Membership in the row-major window list. -/
theorem mem_windowList (size : ℕ) (ij : ℕ × ℕ) :
    ij ∈ windowList size ↔ ij.1 < size ∧ ij.2 < size := by
  cases ij with
  | mk i j => simp [windowList, List.pair_mem_product]

/-- The window-to-absolute translation is injective for a fixed window. -/
theorem pvcTranslate_inj (size : ℕ) (pos : ℤ × ℤ) (a b : ℕ × ℕ)
    (h : pvcTranslate size pos a = pvcTranslate size pos b) : a = b := by
  cases a with
  | mk a1 a2 =>
    cases b with
    | mk b1 b2 =>
      simp only [pvcTranslate, Prod.mk.injEq] at h ⊢
      obtain ⟨h1, h2⟩ := h
      constructor <;> omega

/-- A translated window pixel lies in a filtered-and-translated region list
iff the pixel satisfies the region predicate. -/
theorem translate_mem_region (size : ℕ) (pos : ℤ × ℤ) (p : ℕ × ℕ → Bool)
    (ij : ℕ × ℕ) (hij : ij ∈ windowList size) :
    pvcTranslate size pos ij ∈
      ((windowList size).filter p).map (pvcTranslate size pos) ↔ p ij = true := by
  rw [List.mem_map]
  constructor
  · rintro ⟨a, ha, hEq⟩
    rw [List.mem_filter] at ha
    rw [pvcTranslate_inj size pos a ij hEq] at ha
    exact ha.2
  · intro hp
    exact ⟨ij, List.mem_filter.mpr ⟨hij, hp⟩, rfl⟩

/-- Claim C1: the wiring of `SimplePVCBinaryLayer` indexes OUTSIDE the
previous layer's grid.  For field size 3 the cell at grid position `(0, 0)`
resolves the input position `(-1, -1)` (row and column both negative), because
the generator uses `center = size//2 + 1` while the layer offsets the query by
`size//2`.  In Python the negative index silently wraps to the last row and
column of the previous layer. -/
theorem c1_pvc_wiring_negative_index :
    (((-1 : ℤ), (-1 : ℤ)) ∈ (simplePVCLayerWiring 3 0 0 "vertical").2) ∧
    ¬((0 : ℤ) ≤ -1) := by
  constructor
  · with_unfolding_all decide
  · decide

/-- Claim C2 counterexample: for field size 3 and orientation `horizontal`,
the window pixel `(0, 2)` (central column, non-center row) is appended to
NEITHER the on-region nor the off-region list, so the two regions do not
cover the `3 × 3` window. -/
theorem c2_cover_counterexample :
    (((0 : ℕ), (2 : ℕ)) ∈ windowList 3) ∧
    pvcTranslate 3 (1, 1) (0, 2) ∉ (get_simple_pvc_receptive_field 3 (1, 1) "horizontal").1 ∧
    pvcTranslate 3 (1, 1) (0, 2) ∉ (get_simple_pvc_receptive_field 3 (1, 1) "horizontal").2 := by
  refine ⟨by decide, ?_, ?_⟩ <;> with_unfolding_all decide

/-- Case split used to characterize on/off coverage for the three
non-vertical orientations. -/
theorem onoff_cover_aux (i2 c i1 : ℕ) (X : Prop) [Decidable X] :
    (((i2 = c ∧ i1 = c) ∨ (i2 ≠ c ∧ X)) ∨ (i2 ≠ c ∧ ¬X)) ↔
      ¬(i2 = c ∧ i1 ≠ c) := by
  tauto

/-- Claim C2 (amended): for every odd field size and every window pixel, the
`vertical` orientation's on/off regions together cover the pixel; for the
three other orientations the regions cover exactly the pixels that are NOT in
the central column away from the (shifted) center — those pixels are dropped
by the generator. -/
theorem c2_amended_coverage (size : ℕ) (pos : ℤ × ℤ) (hodd : size % 2 = 1)
    (ij : ℕ × ℕ) (h1 : ij.1 < size) (h2 : ij.2 < size) :
    (pvcTranslate size pos ij ∈ (get_simple_pvc_receptive_field size pos "vertical").1 ∨
     pvcTranslate size pos ij ∈ (get_simple_pvc_receptive_field size pos "vertical").2) ∧
    (∀ t, (t = "horizontal" ∨ t = "left_inclined" ∨ t = "right_inclined") →
      ((pvcTranslate size pos ij ∈ (get_simple_pvc_receptive_field size pos t).1 ∨
        pvcTranslate size pos ij ∈ (get_simple_pvc_receptive_field size pos t).2) ↔
        ¬(ij.2 = pvcCenter size ∧ ij.1 ≠ pvcCenter size))) := by
  have hwin : ij ∈ windowList size := (mem_windowList size ij).mpr ⟨h1, h2⟩
  constructor
  · unfold get_simple_pvc_receptive_field
    rw [translate_mem_region size pos _ ij hwin, translate_mem_region size pos _ ij hwin]
    simp only [pvcOnPred, pvcOffPred, String.reduceEq, ite_true, ite_false, reduceIte,
      decide_eq_true_eq]
    by_cases hc : ij.2 = pvcCenter size
    · left; left; exact hc
    · by_cases hs : (k2 ≤ pvcSlope size ij.1 ij.2 ∨ pvcSlope size ij.1 ij.2 ≤ -k2)
      · left; right; exact ⟨hc, hs⟩
      · right; exact ⟨hc, hs⟩
  · rintro t (rfl | rfl | rfl) <;>
      (unfold get_simple_pvc_receptive_field
       rw [translate_mem_region size pos _ ij hwin, translate_mem_region size pos _ ij hwin]
       simp only [pvcOnPred, pvcOffPred, String.reduceEq, ite_true, ite_false, reduceIte,
         decide_eq_true_eq]
       exact onoff_cover_aux ij.2 (pvcCenter size) ij.1 _)

/-- Claim C2 (amended) witness at field size 5, pixel `(1, 3)`. -/
theorem c2_amended_coverage_witness :
    ((5 : ℕ) % 2 = 1 ∧ (1 : ℕ) < 5 ∧ (3 : ℕ) < 5) ∧
    ((pvcTranslate 5 (0, 0) (1, 3) ∈ (get_simple_pvc_receptive_field 5 (0, 0) "vertical").1 ∨
      pvcTranslate 5 (0, 0) (1, 3) ∈ (get_simple_pvc_receptive_field 5 (0, 0) "vertical").2) ∧
     (∀ t, (t = "horizontal" ∨ t = "left_inclined" ∨ t = "right_inclined") →
       ((pvcTranslate 5 (0, 0) (1, 3) ∈ (get_simple_pvc_receptive_field 5 (0, 0) t).1 ∨
         pvcTranslate 5 (0, 0) (1, 3) ∈ (get_simple_pvc_receptive_field 5 (0, 0) t).2) ↔
         ¬((1, 3).2 = pvcCenter 5 ∧ (1, 3).1 ≠ pvcCenter 5)))) :=
  ⟨⟨rfl, by decide, by decide⟩,
   c2_amended_coverage 5 (0, 0) rfl (1, 3) (by decide) (by decide)⟩

/-! ## Cell response models (src/cells/) -/

/-- Mean of a list of integer responses, `sum / len` with Python's exact
integer-ratio value. -/
def listMean (l : List ℤ) : ℚ := (l.sum : ℚ) / l.length

/-- The value of `np.mean` on a list of integer responses: `none` models the
IEEE `nan` produced on an empty list (with only a runtime warning, no
exception). -/
def npMean (l : List ℤ) : Option ℚ :=
  if l.length = 0 then none else some (listMean l)

/-- Comparison `a <= b` where `a` may be `nan` (`none`): any comparison with
`nan` is false. -/
def nanLe (a : Option ℚ) (b : ℚ) : Bool :=
  match a with
  | none => false
  | some x => decide (x ≤ b)

/-- Comparison `a >= b` where `a` may be `nan` (`none`). -/
def nanGe (a : Option ℚ) (b : ℚ) : Bool :=
  match a with
  | none => false
  | some x => decide (b ≤ x)

/-- `tolerance_line` applied to a possibly-`nan` first argument: `nan > x1`
is false in IEEE arithmetic, so the `else` branch returns `-1`. -/
def tolLineNan (x : Option ℚ) (x1 y2 : ℚ) : ℚ :=
  match x with
  | none => -1
  | some v => tolerance_line v x1 y2

/-- `BipolarBinaryCell._calculate_response` of `src/cells/bipolar.py`.
`none` models the Python exceptions: `ZeroDivisionError` when either input
list is empty, `TypeError` (float/complex comparison) when the elliptical
radicand is negative, and `UnboundLocalError` (`response` referenced before
assignment) for an unknown tolerance tag.  The shares are used directly for
`center_type == 1` (on-center) and complemented (`1 - share`) otherwise. -/
def bipolarCalculateResponse (center_type : ℤ) (tol : String) (cth sth : ℚ)
    (centerIn surroundIn : List ℤ) : Option ℤ :=
  if centerIn.length = 0 ∨ surroundIn.length = 0 then none
  else
    let cshare := if center_type = 1 then listMean centerIn else 1 - listMean centerIn
    let sshare := if center_type = 1 then listMean surroundIn else 1 - listMean surroundIn
    if tol = "constant" then
      some (if cth ≤ cshare ∧ sshare ≤ sth then 1 else 0)
    else if tol = "linear" then
      some (if sshare ≤ tolerance_line cshare cth sth then 1 else 0)
    else if tol = "elliptical" then
      if cth < cshare then
        let e := 1 - (cshare - 1) ^ 2 / (cth - 1) ^ 2
        if e < 0 then none
        else some (if leMulSqrt sshare sth e then 1 else 0)
      else some (if sshare ≤ -1 then 1 else 0)
    else none

/-- Comparison `a <= y2 * sqrt(e)` where `a` may be `nan` (`none`). -/
def nanLeMulSqrt (a : Option ℚ) (y2 e : ℚ) : Bool :=
  match a with
  | none => false
  | some s => leMulSqrt s y2 e

/-- The elliptical comparison of `_calculate_response`:
`off_share <= tolerance_ellipse(on_share, x1, y2)` with `nan`-aware float
semantics.  For `on_share <= x1` (or `nan`) the tolerance is `-1`; otherwise
a negative radicand would make Python build a complex number and raise
`TypeError` on the comparison (`none`). -/
def pvcEllipticalResult (onShare offShare : Option ℚ) (x1 y2 : ℚ) : Option ℤ :=
  match onShare with
  | none => some (if nanLe offShare (-1) then 1 else 0)
  | some x =>
    if x1 < x then
      let e := 1 - (x - 1) ^ 2 / (x1 - 1) ^ 2
      if e < 0 then none
      else some (if nanLeMulSqrt offShare y2 e then 1 else 0)
    else some (if nanLe offShare (-1) then 1 else 0)

/-- `SimplePVCBinaryCell._calculate_response` of `src/cells/pvc.py` (the same
code as `SimplePVCBinaryCell2._calculate_response`).  Shares are `np.mean`
values, so an empty region gives `nan` (comparisons false) rather than an
error; an unknown tolerance tag gives `UnboundLocalError` (`none`). -/
def pvcCalculateResponse (tol : String) (onTh offTh : ℚ)
    (onIn offIn : List ℤ) : Option ℤ :=
  let onShare := npMean onIn
  let offShare := npMean offIn
  if tol = "constant" then
    some (if nanGe onShare onTh && nanLe offShare offTh then 1 else 0)
  else if tol = "linear" then
    some (if nanLe offShare (tolLineNan onShare onTh offTh) then 1 else 0)
  else if tol = "elliptical" then
    pvcEllipticalResult onShare offShare onTh offTh
  else none

/-- Python list indexing: a negative index wraps once from the end
(`l[-1]` is the last element); anything past either bound raises
`IndexError` (`none`). -/
def pythonGet {α : Type} (l : List α) (i : ℤ) : Option α :=
  if 0 ≤ i then l.get? i.toNat
  else if -(l.length : ℤ) ≤ i then l.get? (i + l.length).toNat
  else none

/-- Two-level Python list indexing `l[row][column]`. -/
def pythonGet2 {α : Type} (g : List (List α)) (p : ℤ × ℤ) : Option α :=
  (pythonGet g p.1).bind (fun row => pythonGet row p.2)

/-- Two-level grid read at a natural-number position (`input_[self.position]`
for a rod cell; rod positions are naturals, so the numpy negative-wrap case
cannot arise). -/
def npGet2 (g : List (List ℤ)) (p : ℕ × ℕ) : Option ℤ :=
  (g.get? p.1).bind (fun row => row.get? p.2)

/-- Modelled from the spec: `RodBinaryCell`, imported by
`src/structures/photoreceptors_layer.py` from `src/cells/photoreceptors.py`,
is missing from the source tree (only `RodBinary`, with the same `run`
semantics but a private response field, is present).  Per spec §4.3 a leaf
cell sets its response to the frame value at its position. -/
structure RodBinaryCell where
  position : ℕ × ℕ
  n_iter : ℕ
  response : ℤ
  deriving Repr, DecidableEq

/-- One `run(input_)` of a rod cell: `self._response = input_[self.position]`
then `self.n_iter += 1`; reading outside the frame raises (`none`). -/
def rodBinaryCellRun (frame : List (List ℤ)) (c : RodBinaryCell) :
    Option RodBinaryCell :=
  (npGet2 frame c.position).map
    (fun v => { position := c.position, n_iter := c.n_iter + 1, response := v })

/-- `BipolarBinaryCell` of `src/cells/bipolar.py`.  The constructor-resolved
input references are represented by the previous-layer grid positions they
were resolved from (`input_cells[row][column]` with Python index semantics);
the referenced cell objects are never replaced inside their grid, so reading
a reference at run time equals reading the grid at the stored position. -/
structure BipolarBinaryCell where
  position : ℕ × ℕ
  center_type : ℤ
  center_surround_tolerance : String
  center_threshold : ℚ
  surround_threshold : ℚ
  center_input : List (ℤ × ℤ)
  surround_input : List (ℤ × ℤ)
  n_iter : ℕ
  response : ℤ
  deriving Repr, DecidableEq

/-- One `run()` of a bipolar cell over the previous layer's current response
grid: `self.response = self._calculate_response(); self.n_iter += 1`. -/
def bipolarBinaryCellRun (prevResp : List (List ℤ)) (c : BipolarBinaryCell) :
    Option BipolarBinaryCell :=
  match c.center_input.mapM (pythonGet2 prevResp),
      c.surround_input.mapM (pythonGet2 prevResp) with
  | some centerIn, some surroundIn =>
    match bipolarCalculateResponse c.center_type c.center_surround_tolerance
        c.center_threshold c.surround_threshold centerIn surroundIn with
    | some r => some { c with response := r, n_iter := c.n_iter + 1 }
    | none => none
  | _, _ => none

/-- Modelled from the spec: `GanglionBinaryCell`, imported by
`src/structures/ganglions_layer.py` from `src/cells/ganglion.py`, is missing
from the source tree.  Spec §4.3 describes a single center–surround cell
model covering bipolar and ganglion cells, so the ganglion cell is the
bipolar cell model. -/
abbrev GanglionBinaryCell := BipolarBinaryCell

/-- Modelled from the spec: `run()` of the missing `GanglionBinaryCell` is
the center–surround cell run of spec §4.3. -/
abbrev ganglionBinaryCellRun := bipolarBinaryCellRun

/-- `SimplePVCBinaryCell` of `src/cells/pvc.py`.  For sublayer type `both`
the source wires the same positions against the on-center and off-center
sub-grids of the previous layer, so one position list per region suffices. -/
structure SimplePVCBinaryCell where
  position : ℕ × ℕ
  input_sublayer_type : String
  regions_tolerance : String
  on_region_threshold : ℚ
  off_region_threshold : ℚ
  on_region_input : List (ℤ × ℤ)
  off_region_input : List (ℤ × ℤ)
  n_iter : ℕ
  response : ℤ
  deriving Repr, DecidableEq

/-- One `run()` of a simple PVC cell over the previous layer's on-center and
off-center response grids.  For `both` the cell multiplies the two branch
responses; for an unrecognized sublayer type the source leaves `response`
untouched and still increments `n_iter`. -/
def simplePVCBinaryCellRun (prevOnResp prevOffResp : List (List ℤ))
    (c : SimplePVCBinaryCell) : Option SimplePVCBinaryCell :=
  if c.input_sublayer_type = "on-center" ∨ c.input_sublayer_type = "off-center" then
    let grid := if c.input_sublayer_type = "on-center" then prevOnResp else prevOffResp
    match c.on_region_input.mapM (pythonGet2 grid),
        c.off_region_input.mapM (pythonGet2 grid) with
    | some onIn, some offIn =>
      match pvcCalculateResponse c.regions_tolerance c.on_region_threshold
          c.off_region_threshold onIn offIn with
      | some r => some { c with response := r, n_iter := c.n_iter + 1 }
      | none => none
    | _, _ => none
  else if c.input_sublayer_type = "both" then
    match c.on_region_input.mapM (pythonGet2 prevOnResp),
        c.off_region_input.mapM (pythonGet2 prevOnResp),
        c.on_region_input.mapM (pythonGet2 prevOffResp),
        c.off_region_input.mapM (pythonGet2 prevOffResp) with
    | some onIn1, some offIn1, some onIn2, some offIn2 =>
      match pvcCalculateResponse c.regions_tolerance c.on_region_threshold
          c.off_region_threshold onIn1 offIn1,
          pvcCalculateResponse c.regions_tolerance c.on_region_threshold
          c.off_region_threshold onIn2 offIn2 with
      | some r1, some r2 => some { c with response := r1 * r2, n_iter := c.n_iter + 1 }
      | _, _ => none
    | _, _, _, _ => none
  else
    some { c with n_iter := c.n_iter + 1 }

/-- Every successful center–surround response computation yields 0 or 1. -/
theorem bipolarCalculateResponse_binary (ct : ℤ) (tol : String) (cth sth : ℚ)
    (cIn sIn : List ℤ) (r : ℤ)
    (h : bipolarCalculateResponse ct tol cth sth cIn sIn = some r) :
    r = 0 ∨ r = 1 := by
  simp only [bipolarCalculateResponse] at h
  split_ifs at h <;> (try injection h with h) <;> omega

/-- Every successful simple-PVC response computation yields 0 or 1. -/
theorem pvcCalculateResponse_binary (tol : String) (onTh offTh : ℚ)
    (onIn offIn : List ℤ) (r : ℤ)
    (h : pvcCalculateResponse tol onTh offTh onIn offIn = some r) :
    r = 0 ∨ r = 1 := by
  simp only [pvcCalculateResponse] at h
  rcases hon : npMean onIn with _ | x <;> rw [hon] at h <;>
    simp only [pvcEllipticalResult] at h <;>
    split_ifs at h <;> (try injection h with h) <;> omega

/-- A successful two-level grid read returns an element of the grid. -/
theorem npGet2_mem (g : List (List ℤ)) (p : ℕ × ℕ) (v : ℤ)
    (h : npGet2 g p = some v) : ∃ row ∈ g, v ∈ row := by
  unfold npGet2 at h
  rcases hr : g.get? p.1 with _ | row
  · rw [hr] at h; simp at h
  · rw [hr] at h
    simp only [Option.bind_some, Option.some_bind] at h
    exact ⟨row, List.get?_mem hr, List.get?_mem h⟩

/-- Claim C3: with the `constant` policy (input lists non-empty so the share
divisions are defined), the response after `run()` is 1 iff
`center_share >= center_threshold` and `surround_share <= surround_threshold`,
boundary equalities included; for on-center cells (`center_type = 1`) the
shares are the raw means, for off-center cells (`center_type = -1`) both
shares are complemented as `1 - share` first. -/
theorem c3_constant_policy (cth sth : ℚ) (centerIn surroundIn : List ℤ)
    (hc : centerIn ≠ []) (hs : surroundIn ≠ []) :
    (bipolarCalculateResponse 1 "constant" cth sth centerIn surroundIn = some 1 ↔
      (cth ≤ listMean centerIn ∧ listMean surroundIn ≤ sth)) ∧
    (bipolarCalculateResponse (-1) "constant" cth sth centerIn surroundIn = some 1 ↔
      (cth ≤ 1 - listMean centerIn ∧ 1 - listMean surroundIn ≤ sth)) := by
  have hc' : ¬(centerIn.length = 0 ∨ surroundIn.length = 0) := by
    push_neg
    simp [List.length_eq_zero, hc, hs]
  constructor <;>
    · simp only [bipolarCalculateResponse, if_neg hc']
      norm_num

/-- Claim C3 witness: `center_threshold = 4/5`, `surround_threshold = 1/5`,
center inputs `[1, 1]`, surround inputs `[0, 0]`. -/
theorem c3_constant_policy_witness :
    (([1, 1] : List ℤ) ≠ [] ∧ ([0, 0] : List ℤ) ≠ []) ∧
    ((bipolarCalculateResponse 1 "constant" (4 / 5) (1 / 5) [1, 1] [0, 0] = some 1 ↔
       ((4 / 5 : ℚ) ≤ listMean [1, 1] ∧ listMean [0, 0] ≤ 1 / 5)) ∧
     (bipolarCalculateResponse (-1) "constant" (4 / 5) (1 / 5) [1, 1] [0, 0] = some 1 ↔
       ((4 / 5 : ℚ) ≤ 1 - listMean [1, 1] ∧ 1 - listMean [0, 0] ≤ 1 / 5))) :=
  ⟨⟨by decide, by decide⟩,
   c3_constant_policy (4 / 5) (1 / 5) [1, 1] [0, 0] (by decide) (by decide)⟩

/-- Claim C5: for every cell kind, every successful `run()` leaves the
response in `{0, 1}`.  Leaf (rod) cells need binary frame values; the
center–surround statement covers both `BipolarBinaryCell` and the
spec-modelled `GanglionBinaryCell` (the same model); the simple-PVC statement
needs a recognized sublayer type (with `both`, the response is the product of
two branch responses, each 0 or 1). -/
theorem c5_response_in_01 :
    (∀ frame (c : RodBinaryCell) c',
      (∀ row ∈ frame, ∀ v ∈ row, v = 0 ∨ v = 1) →
      rodBinaryCellRun frame c = some c' → c'.response = 0 ∨ c'.response = 1) ∧
    (∀ prevResp (c : BipolarBinaryCell) c',
      bipolarBinaryCellRun prevResp c = some c' →
      c'.response = 0 ∨ c'.response = 1) ∧
    (∀ prevOnResp prevOffResp (c : SimplePVCBinaryCell) c',
      (c.input_sublayer_type = "on-center" ∨ c.input_sublayer_type = "off-center" ∨
        c.input_sublayer_type = "both") →
      simplePVCBinaryCellRun prevOnResp prevOffResp c = some c' →
      c'.response = 0 ∨ c'.response = 1) := by
  refine ⟨?_, ?_, ?_⟩
  · intro frame c c' hbin h
    unfold rodBinaryCellRun at h
    rcases hv : npGet2 frame c.position with _ | v
    · rw [hv] at h; simp at h
    · rw [hv] at h
      simp only [Option.map_some'] at h
      obtain ⟨row, hrow, hmem⟩ := npGet2_mem frame c.position v hv
      injection h with h
      rw [← h]
      exact hbin row hrow v hmem
  · intro prevResp c c' h
    unfold bipolarBinaryCellRun at h
    split at h
    next centerIn surroundIn hce hse =>
      split at h
      next r hr =>
        cases h
        exact bipolarCalculateResponse_binary _ _ _ _ _ _ r hr
      next => exact absurd h (by simp)
    next => exact absurd h (by simp)
  · intro prevOnResp prevOffResp c c' hrec h
    unfold simplePVCBinaryCellRun at h
    split_ifs at h with h1 h2
    · simp only [] at h
      split at h
      · split at h
        · rename_i r hr
          cases h
          exact pvcCalculateResponse_binary _ _ _ _ _ r hr
        · exact absurd h (by simp)
      · exact absurd h (by simp)
    · simp only [] at h
      split at h
      · split at h
        · rename_i r hr
          cases h
          exact pvcCalculateResponse_binary _ _ _ _ _ r hr
        · exact absurd h (by simp)
      · exact absurd h (by simp)
    · split at h
      · split at h
        · rename_i r1 r2 hr1 hr2
          cases h
          have b1 := pvcCalculateResponse_binary _ _ _ _ _ r1 hr1
          have b2 := pvcCalculateResponse_binary _ _ _ _ _ r2 hr2
          rcases b1 with rfl | rfl <;> rcases b2 with rfl | rfl <;> norm_num
        · exact absurd h (by simp)
      · exact absurd h (by simp)
    · rcases hrec with ht | ht | ht <;> simp_all

/-- Claim C5 witness: concrete cells of each kind run on concrete inputs. -/
theorem c5_response_in_01_witness :
    ((∀ row ∈ ([[1]] : List (List ℤ)), ∀ v ∈ row, v = 0 ∨ v = 1) ∧
     rodBinaryCellRun [[1]] ⟨(0, 0), 0, 0⟩ = some ⟨(0, 0), 1, 1⟩ ∧
     ((1 : ℤ) = 0 ∨ (1 : ℤ) = 1)) ∧
    (bipolarBinaryCellRun [[1]] ⟨(0, 0), 1, "constant", 1, 0, [(0, 0)], [(0, 0)], 0, 0⟩ =
       some ⟨(0, 0), 1, "constant", 1, 0, [(0, 0)], [(0, 0)], 1, 0⟩ ∧
     ((0 : ℤ) = 0 ∨ (0 : ℤ) = 1)) ∧
    (("on-center" = "on-center" ∨ ("on-center" : String) = "off-center" ∨
        ("on-center" : String) = "both") ∧
     simplePVCBinaryCellRun [[1]] [[0]]
        ⟨(0, 0), "on-center", "constant", 1, 0, [(0, 0)], [(0, 0)], 0, 0⟩ =
       some ⟨(0, 0), "on-center", "constant", 1, 0, [(0, 0)], [(0, 0)], 1, 0⟩ ∧
     ((0 : ℤ) = 0 ∨ (0 : ℤ) = 1)) := by
  refine ⟨⟨?_, ?_, ?_⟩, ⟨?_, ?_⟩, ⟨?_, ?_, ?_⟩⟩
  · decide
  · with_unfolding_all decide
  · exact c5_response_in_01.1 [[1]] ⟨(0, 0), 0, 0⟩ ⟨(0, 0), 1, 1⟩ (by decide)
      (by with_unfolding_all decide)
  · with_unfolding_all decide
  · exact c5_response_in_01.2.1 [[1]] ⟨(0, 0), 1, "constant", 1, 0, [(0, 0)], [(0, 0)], 0, 0⟩
      ⟨(0, 0), 1, "constant", 1, 0, [(0, 0)], [(0, 0)], 1, 0⟩
      (by with_unfolding_all decide)
  · left; rfl
  · with_unfolding_all decide
  · exact c5_response_in_01.2.2 [[1]] [[0]]
      ⟨(0, 0), "on-center", "constant", 1, 0, [(0, 0)], [(0, 0)], 0, 0⟩
      ⟨(0, 0), "on-center", "constant", 1, 0, [(0, 0)], [(0, 0)], 1, 0⟩
      (Or.inl rfl) (by with_unfolding_all decide)

/-- `mapM` of any fallible read over an empty reference list succeeds with
the empty list. -/
theorem optionMapM_nil {α β : Type} (f : α → Option β) :
    List.mapM f ([] : List α) = some [] := rfl

/-- Inner-loop form of the empty-list `mapM` computation. -/
theorem optionMapMLoop_nil {α β : Type} (f : α → Option β) :
    List.mapM.loop f [] [] = some [] := rfl

/-- Claim C9 counterexample: requesting receptive-field geometry with the
unknown orientation tag `diagonal` does NOT surface an error — the generator
falls through every branch and returns two empty region lists — and a simple
PVC cell wired from those empty regions runs without error and silently
responds 0 (its `np.mean` shares are `nan`, so the `constant` test fails). -/
theorem c9_counterexample :
    get_simple_pvc_receptive_field 3 (1, 1) "diagonal" = ([], []) ∧
    (simplePVCBinaryCellRun [[0]] [[0]]
        ⟨(0, 0), "on-center", "constant", 1, 0, [], [], 0, 0⟩).map
      (fun c => c.response) = some 0 := by
  constructor
  · with_unfolding_all decide
  · with_unfolding_all decide

/-- Claim C9 (amended): an unknown TOLERANCE tag does surface an error at the
first `run()` (`UnboundLocalError`, modelled as `none`) in both the
center–surround and the simple-PVC response computations; but an unknown
ORIENTATION tag does not: the geometry generator silently returns two empty
region lists, and a simple PVC cell wired from them runs successfully and
responds 0 under the `constant` policy. -/
theorem c9_amended_error_surfacing (tol t : String)
    (htol1 : tol ≠ "constant") (htol2 : tol ≠ "linear") (htol3 : tol ≠ "elliptical")
    (ht1 : t ≠ "vertical") (ht2 : t ≠ "horizontal")
    (ht3 : t ≠ "left_inclined") (ht4 : t ≠ "right_inclined") :
    (∀ ct cth sth cIn sIn, bipolarCalculateResponse ct tol cth sth cIn sIn = none) ∧
    (∀ onTh offTh onIn offIn, pvcCalculateResponse tol onTh offTh onIn offIn = none) ∧
    (∀ size pos, get_simple_pvc_receptive_field size pos t = ([], [])) ∧
    (∀ pOn pOff (c : SimplePVCBinaryCell) c',
      c.input_sublayer_type = "on-center" → c.regions_tolerance = "constant" →
      c.on_region_input = [] → c.off_region_input = [] →
      simplePVCBinaryCellRun pOn pOff c = some c' → c'.response = 0) := by
  refine ⟨?_, ?_, ?_, ?_⟩
  · intro ct cth sth cIn sIn
    simp only [bipolarCalculateResponse]
    split_ifs <;> simp_all
  · intro onTh offTh onIn offIn
    simp only [pvcCalculateResponse]
    split_ifs <;> simp_all
  · intro size pos
    simp only [get_simple_pvc_receptive_field, Prod.mk.injEq, List.map_eq_nil,
      List.filter_eq_nil]
    constructor <;> intro a ha <;>
      simp [pvcOnPred, pvcOffPred, ht1, ht2, ht3, ht4]
  · intro pOn pOff c c' htype htolc hi ho h
    have hrun : simplePVCBinaryCellRun pOn pOff c =
        some { c with response := 0, n_iter := c.n_iter + 1 } := by
      simp [simplePVCBinaryCellRun, htype, htolc, hi, ho, optionMapM_nil,
        optionMapMLoop_nil, pvcCalculateResponse, npMean, nanGe, nanLe]
    rw [hrun] at h
    injection h with h
    rw [← h]

/-- Claim C9 (amended) witness with the unknown tags `quadratic` and
`diagonal` and a concrete empty-region cell. -/
theorem c9_amended_error_surfacing_witness :
    (("quadratic" : String) ≠ "constant" ∧ ("quadratic" : String) ≠ "linear" ∧
     ("quadratic" : String) ≠ "elliptical" ∧ ("diagonal" : String) ≠ "vertical" ∧
     ("diagonal" : String) ≠ "horizontal" ∧ ("diagonal" : String) ≠ "left_inclined" ∧
     ("diagonal" : String) ≠ "right_inclined") ∧
    ((∀ ct cth sth cIn sIn,
        bipolarCalculateResponse ct "quadratic" cth sth cIn sIn = none) ∧
     (∀ onTh offTh onIn offIn,
        pvcCalculateResponse "quadratic" onTh offTh onIn offIn = none) ∧
     (∀ size pos, get_simple_pvc_receptive_field size pos "diagonal" = ([], [])) ∧
     (∀ pOn pOff (c : SimplePVCBinaryCell) c',
        c.input_sublayer_type = "on-center" → c.regions_tolerance = "constant" →
        c.on_region_input = [] → c.off_region_input = [] →
        simplePVCBinaryCellRun pOn pOff c = some c' → c'.response = 0)) :=
  ⟨⟨by decide, by decide, by decide, by decide, by decide, by decide, by decide⟩,
   c9_amended_error_surfacing "quadratic" "diagonal" (by decide) (by decide)
     (by decide) (by decide) (by decide) (by decide) (by decide)⟩

/-! ## Layer composition and pipeline (src/structures/, src/mediaproc/input.py) -/

/-- Build a `rows × cols` grid (list of rows) from a function of `(i, j)`,
the row-major double loop used by every `_create_cells`. -/
def mkGrid {α : Type} (rows cols : ℕ) (f : ℕ → ℕ → α) : List (List α) :=
  (List.range rows).map (fun i => (List.range cols).map (fun j => f i j))

/-- `ImagesGet` of `src/mediaproc/input.py`, list-of-images case (the
single-`ndarray` case repeats one frame the same way).  Only the state the
core reads is modelled: the image list and the iteration counter. -/
structure ImagesGet where
  images : List (List (List ℤ))
  n_iter : ℕ
  deriving Repr, DecidableEq

/-- `cv2.threshold(frame, thresh=127, maxval=1, type=THRESH_BINARY)`:
pixel ↦ 1 if it exceeds 127, else 0. -/
def binarizeFrame (g : List (List ℤ)) : List (List ℤ) :=
  g.map (List.map (fun v => if 127 < v then 1 else 0))

/-- `ImagesGet.get_frame`: `_load_new_frame` increments `n_iter`, picks
`images[n_iter - 1]` (repeating the last image once the list is exhausted),
binarizes it, and returns it.  `none` models the `IndexError` on an empty
image list. -/
def imagesGetFrame (s : ImagesGet) : Option (List (List ℤ) × ImagesGet) :=
  let n := s.n_iter + 1
  match s.images.get?
      (if s.images.length ≤ n then s.images.length - 1 else n - 1) with
  | none => none
  | some f => some (binarizeFrame f, { images := s.images, n_iter := n })

/-- `RodsBinaryLayer` of `src/structures/photoreceptors_layer.py`. -/
structure RodsBinaryLayer where
  shape : ℕ × ℕ
  cells : List (List RodBinaryCell)
  input_ : Option (List (List ℤ))
  response : List (List ℤ)
  n_iter : ℕ
  deriving Repr, DecidableEq

/-- `RodsBinaryLayer.__init__`: grid of rod cells, one per position, each
constructed with the layer's iteration count.  The `np.empty` response array
(uninitialized memory, never read before the first `run`) is modelled as
zero-filled. -/
def mkRodsBinaryLayer (shape : ℕ × ℕ) (n_iter : ℕ) : RodsBinaryLayer :=
  { shape := shape
    cells := mkGrid shape.1 shape.2
      (fun i j => { position := (i, j), n_iter := n_iter, response := 0 })
    input_ := none
    response := mkGrid shape.1 shape.2 (fun _ _ => 0)
    n_iter := n_iter }

/-- `RodsBinaryLayer.run`: fetch a frame from the data source (which advances
the source's own counter), run every cell on it, publish the per-cell
responses, increment the layer counter. -/
def rodsBinaryLayerRun (ds : ImagesGet) (L : RodsBinaryLayer) :
    Option (ImagesGet × RodsBinaryLayer) :=
  match imagesGetFrame ds with
  | none => none
  | some (frame, ds') =>
    match L.cells.mapM (List.mapM (rodBinaryCellRun frame)) with
    | none => none
    | some cells' =>
      some (ds',
        { shape := L.shape, cells := cells', input_ := some frame,
          response := cells'.map (List.map (fun c => c.response)),
          n_iter := L.n_iter + 1 })

/-- Input positions resolved by `GanglionsBinaryLayer._create_cells` (and
identically by `BipolarsBinaryLayer._create_cells`) for the cell at grid
position `(i, j)`: `get_csarf` queried at
`center_position = (i, j) + (surround_radius, surround_radius)`. -/
def csarfLayerWiring (rf : ℕ × ℕ) (i j : ℕ) : List (ℤ × ℤ) × List (ℤ × ℤ) :=
  get_csarf rf ((i : ℤ) + rf.2, (j : ℤ) + rf.2)

/-- `GanglionsBinaryLayer` of `src/structures/ganglions_layer.py`:
on-center and off-center sub-grids and a pair of response arrays. -/
structure GanglionsBinaryLayer where
  shape : ℤ × ℤ
  on_cells : List (List GanglionBinaryCell)
  off_cells : List (List GanglionBinaryCell)
  input_ : Option (List (List ℤ))
  response : List (List ℤ) × List (List ℤ)
  n_iter : ℕ
  deriving Repr, DecidableEq

/-- `GanglionsBinaryLayer.__init__`: shape shrinks by `2 * surround_radius`
per axis; each position gets one on-center and one off-center cell wired via
`get_csarf` against the previous (rod) layer's cell grid. -/
def mkGanglionsBinaryLayer (prev : RodsBinaryLayer) (rf : ℕ × ℕ)
    (tol : String) (cth sth : ℚ) (n_iter : ℕ) : GanglionsBinaryLayer :=
  let shape : ℤ × ℤ :=
    ((prev.shape.1 : ℤ) - 2 * rf.2, (prev.shape.2 : ℤ) - 2 * rf.2)
  let mkCells := fun (ctype : ℤ) =>
    mkGrid shape.1.toNat shape.2.toNat (fun i j =>
      { position := (i, j), center_type := ctype,
        center_surround_tolerance := tol,
        center_threshold := cth, surround_threshold := sth,
        center_input := (csarfLayerWiring rf i j).1,
        surround_input := (csarfLayerWiring rf i j).2,
        n_iter := n_iter, response := 0 })
  { shape := shape, on_cells := mkCells 1, off_cells := mkCells (-1),
    input_ := none,
    response := (mkGrid shape.1.toNat shape.2.toNat (fun _ _ => 0),
                 mkGrid shape.1.toNat shape.2.toNat (fun _ _ => 0)),
    n_iter := n_iter }

/-- `GanglionsBinaryLayer.run`: store (an alias of) the previous layer's
response as `input_`, run every on- and off-cell against the previous layer's
cells' current responses (the source interleaves the two sub-grids per
position, but every cell reads only the previous layer, so grid-by-grid order
is equivalent), publish both response grids, increment the counter. -/
def ganglionsBinaryLayerRun (prev : RodsBinaryLayer) (L : GanglionsBinaryLayer) :
    Option GanglionsBinaryLayer :=
  let prevResp := prev.cells.map (List.map (fun c => c.response))
  match L.on_cells.mapM (List.mapM (ganglionBinaryCellRun prevResp)),
      L.off_cells.mapM (List.mapM (ganglionBinaryCellRun prevResp)) with
  | some on', some off' =>
    some { shape := L.shape, on_cells := on', off_cells := off',
           input_ := some prev.response,
           response := (on'.map (List.map (fun c => c.response)),
                        off'.map (List.map (fun c => c.response))),
           n_iter := L.n_iter + 1 }
  | _, _ => none

/-- `BipolarsBinaryLayer` of `src/structures/bipolars_layer.py`: same
structure as the ganglions layer but with two separate response arrays. -/
structure BipolarsBinaryLayer where
  shape : ℤ × ℤ
  on_cells : List (List BipolarBinaryCell)
  off_cells : List (List BipolarBinaryCell)
  input_ : Option (List (List ℤ))
  on_response : List (List ℤ)
  off_response : List (List ℤ)
  n_iter : ℕ
  deriving Repr, DecidableEq

/-- `BipolarsBinaryLayer.__init__`: shape shrinks by `2 * surround_radius`
per axis; wiring identical to the ganglions layer. -/
def mkBipolarsBinaryLayer (prev : RodsBinaryLayer) (rf : ℕ × ℕ)
    (tol : String) (cth sth : ℚ) (n_iter : ℕ) : BipolarsBinaryLayer :=
  let shape : ℤ × ℤ :=
    ((prev.shape.1 : ℤ) - 2 * rf.2, (prev.shape.2 : ℤ) - 2 * rf.2)
  let mkCells := fun (ctype : ℤ) =>
    mkGrid shape.1.toNat shape.2.toNat (fun i j =>
      { position := (i, j), center_type := ctype,
        center_surround_tolerance := tol,
        center_threshold := cth, surround_threshold := sth,
        center_input := (csarfLayerWiring rf i j).1,
        surround_input := (csarfLayerWiring rf i j).2,
        n_iter := n_iter, response := 0 })
  { shape := shape, on_cells := mkCells 1, off_cells := mkCells (-1),
    input_ := none,
    on_response := mkGrid shape.1.toNat shape.2.toNat (fun _ _ => 0),
    off_response := mkGrid shape.1.toNat shape.2.toNat (fun _ _ => 0),
    n_iter := n_iter }

/-- `BipolarsBinaryLayer.run`: `input_ = deepcopy(previous.response)`
(value semantics here), run every cell against the previous layer's cells'
current responses, publish the two response grids, increment the counter. -/
def bipolarsBinaryLayerRun (prev : RodsBinaryLayer) (L : BipolarsBinaryLayer) :
    Option BipolarsBinaryLayer :=
  let prevResp := prev.cells.map (List.map (fun c => c.response))
  match L.on_cells.mapM (List.mapM (bipolarBinaryCellRun prevResp)),
      L.off_cells.mapM (List.mapM (bipolarBinaryCellRun prevResp)) with
  | some on', some off' =>
    some { shape := L.shape, on_cells := on', off_cells := off',
           input_ := some prev.response,
           on_response := on'.map (List.map (fun c => c.response)),
           off_response := off'.map (List.map (fun c => c.response)),
           n_iter := L.n_iter + 1 }
  | _, _ => none

/-- `SimplePVCBinaryLayer` of `src/structures/pvc_simple_layer.py`: one cell
grid and one response grid per orientation sub-layer (the source keys them by
the four orientation strings). -/
structure SimplePVCBinaryLayer where
  shape : ℤ × ℤ
  cellsVertical : List (List SimplePVCBinaryCell)
  cellsHorizontal : List (List SimplePVCBinaryCell)
  cellsLeftInclined : List (List SimplePVCBinaryCell)
  cellsRightInclined : List (List SimplePVCBinaryCell)
  input_ : Option (List (List ℤ) × List (List ℤ))
  responseVertical : List (List ℤ)
  responseHorizontal : List (List ℤ)
  responseLeftInclined : List (List ℤ)
  responseRightInclined : List (List ℤ)
  n_iter : ℕ
  deriving Repr, DecidableEq

/-- `SimplePVCBinaryLayer.__init__`: shape shrinks by
`receptive_field_size - 1` per axis; for every orientation and position one
cell is wired via `get_simple_pvc_receptive_field` at
`center_position = (i, j) + size//2`.  For sublayer type `both` the source
wires the same positions against both previous sub-grids, which the cell
model reproduces from its single position list per region. -/
def mkSimplePVCBinaryLayer (prev : GanglionsBinaryLayer) (size : ℕ)
    (sub tol : String) (onTh offTh : ℚ) (n_iter : ℕ) : SimplePVCBinaryLayer :=
  let shape : ℤ × ℤ :=
    (prev.shape.1 - ((size : ℤ) - 1), prev.shape.2 - ((size : ℤ) - 1))
  let mkCells := fun (t : String) =>
    mkGrid shape.1.toNat shape.2.toNat (fun i j =>
      { position := (i, j), input_sublayer_type := sub,
        regions_tolerance := tol,
        on_region_threshold := onTh, off_region_threshold := offTh,
        on_region_input := (simplePVCLayerWiring size i j t).1,
        off_region_input := (simplePVCLayerWiring size i j t).2,
        n_iter := n_iter, response := 0 })
  { shape := shape,
    cellsVertical := mkCells "vertical",
    cellsHorizontal := mkCells "horizontal",
    cellsLeftInclined := mkCells "left_inclined",
    cellsRightInclined := mkCells "right_inclined",
    input_ := none,
    responseVertical := mkGrid shape.1.toNat shape.2.toNat (fun _ _ => 0),
    responseHorizontal := mkGrid shape.1.toNat shape.2.toNat (fun _ _ => 0),
    responseLeftInclined := mkGrid shape.1.toNat shape.2.toNat (fun _ _ => 0),
    responseRightInclined := mkGrid shape.1.toNat shape.2.toNat (fun _ _ => 0),
    n_iter := n_iter }

/-- `SimplePVCBinaryLayer.run`: `input_ = deepcopy(previous.response)`, run
every cell of every orientation sub-grid against the previous layer's
on-center and off-center cells' current responses, publish the four response
grids, increment the counter. -/
def simplePVCBinaryLayerRun (prev : GanglionsBinaryLayer)
    (L : SimplePVCBinaryLayer) : Option SimplePVCBinaryLayer :=
  let prevOn := prev.on_cells.map (List.map (fun c => c.response))
  let prevOff := prev.off_cells.map (List.map (fun c => c.response))
  match L.cellsVertical.mapM (List.mapM (simplePVCBinaryCellRun prevOn prevOff)),
      L.cellsHorizontal.mapM (List.mapM (simplePVCBinaryCellRun prevOn prevOff)),
      L.cellsLeftInclined.mapM (List.mapM (simplePVCBinaryCellRun prevOn prevOff)),
      L.cellsRightInclined.mapM (List.mapM (simplePVCBinaryCellRun prevOn prevOff)) with
  | some v', some h', some l', some r' =>
    some { shape := L.shape,
           cellsVertical := v', cellsHorizontal := h',
           cellsLeftInclined := l', cellsRightInclined := r',
           input_ := some prev.response,
           responseVertical := v'.map (List.map (fun c => c.response)),
           responseHorizontal := h'.map (List.map (fun c => c.response)),
           responseLeftInclined := l'.map (List.map (fun c => c.response)),
           responseRightInclined := r'.map (List.map (fun c => c.response)),
           n_iter := L.n_iter + 1 }
  | _, _, _, _ => none

/-- `EyeModelAlpha` of `src/structures/eye_models.py`:
ImagesGet → RodsBinaryLayer → GanglionsBinaryLayer → SimplePVCBinaryLayer. -/
structure EyeModelAlpha where
  data_get_layer : ImagesGet
  receptors_layer : RodsBinaryLayer
  ganglions_layer : GanglionsBinaryLayer
  pvc_layer : SimplePVCBinaryLayer
  n_iter : ℕ
  deriving Repr, DecidableEq

/-- `EyeModelAlpha.__init__` with the default classes: each layer is
constructed over the previous one, every iteration counter starting at 0. -/
def mkEyeModelAlpha (images : List (List (List ℤ))) (rodShape : ℕ × ℕ)
    (rf : ℕ × ℕ) (gtol : String) (cth sth : ℚ) (size : ℕ) (sub ptol : String)
    (onTh offTh : ℚ) : EyeModelAlpha :=
  let dg : ImagesGet := { images := images, n_iter := 0 }
  let rods := mkRodsBinaryLayer rodShape 0
  let gang := mkGanglionsBinaryLayer rods rf gtol cth sth 0
  let pvc := mkSimplePVCBinaryLayer gang size sub ptol onTh offTh 0
  { data_get_layer := dg, receptors_layer := rods, ganglions_layer := gang,
    pvc_layer := pvc, n_iter := 0 }

/-- `EyeModelAlpha.run`: receptors, then ganglions, then PVC, then the
pipeline counter. -/
def eyeModelAlphaRun (e : EyeModelAlpha) : Option EyeModelAlpha :=
  match rodsBinaryLayerRun e.data_get_layer e.receptors_layer with
  | none => none
  | some (dg', rods') =>
    match ganglionsBinaryLayerRun rods' e.ganglions_layer with
    | none => none
    | some gang' =>
      match simplePVCBinaryLayerRun gang' e.pvc_layer with
      | none => none
      | some pvc' =>
        some { data_get_layer := dg', receptors_layer := rods',
               ganglions_layer := gang', pvc_layer := pvc',
               n_iter := e.n_iter + 1 }

/-- `N` successive calls of `EyeModelAlpha.run`. -/
def eyeModelAlphaRunN : ℕ → EyeModelAlpha → Option EyeModelAlpha
  | 0, e => some e
  | n + 1, e => (eyeModelAlphaRunN n e).bind eyeModelAlphaRun

/-- The iteration counters of the pipeline and of its three layers. -/
def countersOf (e : EyeModelAlpha) : ℕ × ℕ × ℕ × ℕ :=
  (e.n_iter, e.receptors_layer.n_iter, e.ganglions_layer.n_iter,
    e.pvc_layer.n_iter)

/-- `get_frame` advances the data source's counter by exactly one. -/
theorem imagesGetFrame_n_iter (ds : ImagesGet) (q : List (List ℤ) × ImagesGet)
    (h : imagesGetFrame ds = some q) : q.2.n_iter = ds.n_iter + 1 := by
  unfold imagesGetFrame at h
  simp only [] at h
  split at h
  · exact absurd h (by simp)
  · injection h with h
    rw [← h]

/-- A successful rods-layer run advances the layer counter and the data
source counter by exactly one. -/
theorem rodsBinaryLayerRun_n_iter (ds : ImagesGet) (L : RodsBinaryLayer)
    (p : ImagesGet × RodsBinaryLayer) (h : rodsBinaryLayerRun ds L = some p) :
    p.2.n_iter = L.n_iter + 1 ∧ p.1.n_iter = ds.n_iter + 1 := by
  unfold rodsBinaryLayerRun at h
  split at h
  · exact absurd h (by simp)
  · rename_i frame dsq heq
    split at h
    · exact absurd h (by simp)
    · injection h with h
      rw [← h]
      exact ⟨rfl, imagesGetFrame_n_iter ds _ heq⟩

/-- A successful ganglions-layer run advances the layer counter by one. -/
theorem ganglionsBinaryLayerRun_n_iter (prev : RodsBinaryLayer)
    (L L' : GanglionsBinaryLayer) (h : ganglionsBinaryLayerRun prev L = some L') :
    L'.n_iter = L.n_iter + 1 := by
  unfold ganglionsBinaryLayerRun at h
  simp only [] at h
  split at h
  · injection h with h
    rw [← h]
  · exact absurd h (by simp)

/-- A successful PVC-layer run advances the layer counter by one. -/
theorem simplePVCBinaryLayerRun_n_iter (prev : GanglionsBinaryLayer)
    (L L' : SimplePVCBinaryLayer) (h : simplePVCBinaryLayerRun prev L = some L') :
    L'.n_iter = L.n_iter + 1 := by
  unfold simplePVCBinaryLayerRun at h
  simp only [] at h
  split at h
  · injection h with h
    rw [← h]
  · exact absurd h (by simp)

/-- One successful pipeline run advances the pipeline counter and every
layer counter by exactly one. -/
theorem eyeModelAlphaRun_counters (e e' : EyeModelAlpha)
    (h : eyeModelAlphaRun e = some e') :
    countersOf e' = (e.n_iter + 1, e.receptors_layer.n_iter + 1,
      e.ganglions_layer.n_iter + 1, e.pvc_layer.n_iter + 1) := by
  unfold eyeModelAlphaRun at h
  split at h
  · exact absurd h (by simp)
  · rename_i dsq heq1
    split at h
    · exact absurd h (by simp)
    · rename_i gangq heq2
      split at h
      · exact absurd h (by simp)
      · rename_i pvcq heq3
        injection h with h
        rw [← h]
        have h1 := rodsBinaryLayerRun_n_iter e.data_get_layer e.receptors_layer _ heq1
        have h2 := ganglionsBinaryLayerRun_n_iter _ e.ganglions_layer _ heq2
        have h3 := simplePVCBinaryLayerRun_n_iter _ e.pvc_layer _ heq3
        simp only [countersOf, Prod.mk.injEq]
        exact ⟨trivial, h1.1, h2, h3⟩

/-- After `N` successful pipeline runs every counter has advanced by `N`. -/
theorem eyeModelAlphaRunN_counters (N : ℕ) : ∀ e e' : EyeModelAlpha,
    eyeModelAlphaRunN N e = some e' →
    countersOf e' = (e.n_iter + N, e.receptors_layer.n_iter + N,
      e.ganglions_layer.n_iter + N, e.pvc_layer.n_iter + N) := by
  induction N with
  | zero =>
    intro e e' h
    injection h with h
    rw [← h]
    simp [countersOf]
  | succ n ih =>
    intro e e' h
    simp only [eyeModelAlphaRunN] at h
    rw [Option.bind_eq_some] at h
    obtain ⟨mid, hmid, hrun⟩ := h
    have h1 := ih e mid hmid
    have h2 := eyeModelAlphaRun_counters mid e' hrun
    simp only [countersOf, Prod.mk.injEq] at h1 h2 ⊢
    omega

/-- Claim C6: starting from a freshly constructed pipeline (all iteration
counters 0), after `run()` has succeeded `N` times the pipeline counter and
every layer counter equal exactly `N`; and each cell kind's `run()` advances
that cell's own counter by exactly one per successful call. -/
theorem c6_iteration_counters :
    (∀ images rodShape rf gtol cth sth size sub ptol onTh offTh (N : ℕ),
      (eyeModelAlphaRunN N
        (mkEyeModelAlpha images rodShape rf gtol cth sth size sub ptol
          onTh offTh)).isSome = true →
      (eyeModelAlphaRunN N
        (mkEyeModelAlpha images rodShape rf gtol cth sth size sub ptol
          onTh offTh)).map countersOf = some (N, N, N, N)) ∧
    (∀ frame (c : RodBinaryCell) c',
      rodBinaryCellRun frame c = some c' → c'.n_iter = c.n_iter + 1) ∧
    (∀ prevResp (c : BipolarBinaryCell) c',
      bipolarBinaryCellRun prevResp c = some c' → c'.n_iter = c.n_iter + 1) ∧
    (∀ pOn pOff (c : SimplePVCBinaryCell) c',
      simplePVCBinaryCellRun pOn pOff c = some c' → c'.n_iter = c.n_iter + 1) := by
  refine ⟨?_, ?_, ?_, ?_⟩
  · intro images rodShape rf gtol cth sth size sub ptol onTh offTh N h
    obtain ⟨e', he⟩ := Option.isSome_iff_exists.mp h
    have hc := eyeModelAlphaRunN_counters N _ e' he
    rw [he, Option.map_some', hc]
    norm_num [mkEyeModelAlpha, mkRodsBinaryLayer, mkGanglionsBinaryLayer,
      mkSimplePVCBinaryLayer]
  · intro frame c c' h
    unfold rodBinaryCellRun at h
    rcases hv : npGet2 frame c.position with _ | v
    · rw [hv] at h; simp at h
    · rw [hv] at h
      injection h with h
      rw [← h]
  · intro prevResp c c' h
    unfold bipolarBinaryCellRun at h
    split at h
    · split at h
      · injection h with h
        rw [← h]
      · exact absurd h (by simp)
    · exact absurd h (by simp)
  · intro pOn pOff c c' h
    unfold simplePVCBinaryCellRun at h
    split_ifs at h
    · simp only [] at h
      split at h
      · split at h
        · injection h with h; rw [← h]
        · exact absurd h (by simp)
      · exact absurd h (by simp)
    · simp only [] at h
      split at h
      · split at h
        · injection h with h; rw [← h]
        · exact absurd h (by simp)
      · exact absurd h (by simp)
    · split at h
      · split at h
        · injection h with h; rw [← h]
        · exact absurd h (by simp)
      · exact absurd h (by simp)
    · injection h with h
      rw [← h]

/-- Claim C6 witness: a concrete fresh pipeline run twice (counters all
reach 2) and one concrete run of each cell kind (counter +1). -/
theorem c6_iteration_counters_witness :
    ((eyeModelAlphaRunN 2
        (mkEyeModelAlpha [[[255, 255, 255], [255, 255, 255], [255, 255, 255]]]
          (3, 3) (0, 1) "constant" 1 (7 / 10) 1 "on-center" "constant"
          1 0)).isSome = true ∧
     (eyeModelAlphaRunN 2
        (mkEyeModelAlpha [[[255, 255, 255], [255, 255, 255], [255, 255, 255]]]
          (3, 3) (0, 1) "constant" 1 (7 / 10) 1 "on-center" "constant"
          1 0)).map countersOf = some (2, 2, 2, 2)) ∧
    (rodBinaryCellRun [[1]] ⟨(0, 0), 4, 0⟩ = some ⟨(0, 0), 5, 1⟩ ∧
      (5 : ℕ) = 4 + 1) ∧
    (bipolarBinaryCellRun [[0]]
        ⟨(0, 0), 1, "linear", 1 / 2, 1 / 2, [(0, 0)], [(0, 0)], 7, 0⟩ =
      some ⟨(0, 0), 1, "linear", 1 / 2, 1 / 2, [(0, 0)], [(0, 0)], 8, 0⟩ ∧
      (8 : ℕ) = 7 + 1) ∧
    (simplePVCBinaryCellRun [[0]] [[0]]
        ⟨(0, 0), "both", "constant", 1, 0, [(0, 0)], [(0, 0)], 2, 0⟩ =
      some ⟨(0, 0), "both", "constant", 1, 0, [(0, 0)], [(0, 0)], 3, 0⟩ ∧
      (3 : ℕ) = 2 + 1) := by
  refine ⟨⟨?_, ?_⟩, ⟨?_, ?_⟩, ⟨?_, ?_⟩, ⟨?_, ?_⟩⟩
  · with_unfolding_all decide
  · exact c6_iteration_counters.1 [[[255, 255, 255], [255, 255, 255], [255, 255, 255]]]
      (3, 3) (0, 1) "constant" 1 (7 / 10) 1 "on-center" "constant" 1 0 2
      (by with_unfolding_all decide)
  · with_unfolding_all decide
  · exact c6_iteration_counters.2.1 [[1]] ⟨(0, 0), 4, 0⟩ ⟨(0, 0), 5, 1⟩
      (by with_unfolding_all decide)
  · with_unfolding_all decide
  · exact c6_iteration_counters.2.2.1 [[0]]
      ⟨(0, 0), 1, "linear", 1 / 2, 1 / 2, [(0, 0)], [(0, 0)], 7, 0⟩
      ⟨(0, 0), 1, "linear", 1 / 2, 1 / 2, [(0, 0)], [(0, 0)], 8, 0⟩
      (by with_unfolding_all decide)
  · with_unfolding_all decide
  · exact c6_iteration_counters.2.2.2 [[0]] [[0]]
      ⟨(0, 0), "both", "constant", 1, 0, [(0, 0)], [(0, 0)], 2, 0⟩
      ⟨(0, 0), "both", "constant", 1, 0, [(0, 0)], [(0, 0)], 3, 0⟩
      (by with_unfolding_all decide)

/-- Claim C7 counterexample: a center–surround layer over a `(5, 5)` previous
layer with radii `(1, 2)` gets shape `(1, 1)` — the previous shape reduced by
`2 * surround_radius = 4` per axis — NOT the shape `(4, 4)` that "reduced by
the maximum radius minus one" (`2 - 1 = 1`) would give. -/
theorem c7_counterexample :
    (mkBipolarsBinaryLayer (mkRodsBinaryLayer (5, 5) 0) (1, 2) "linear"
        (4 / 5) (1 / 5) 0).shape = (1, 1) ∧
    ¬(((1, 1) : ℤ × ℤ) = ((5 : ℤ) - (2 - 1), (5 : ℤ) - (2 - 1))) := by
  constructor
  · rfl
  · decide

/-- Claim C7 (amended): the bipolars and ganglions layers shrink the previous
shape by `2 * surround_radius` (the receptive-field diameter `2s + 1` minus
one) on each axis; the oriented PVC layer shrinks it by
`receptive_field_size - 1` on each axis; and the constructed cell grids have
exactly these row counts. -/
theorem c7_amended_shapes (prevR : RodsBinaryLayer) (prevG : GanglionsBinaryLayer)
    (rf : ℕ × ℕ) (size : ℕ) (tol sub ptol : String) (cth sth onTh offTh : ℚ)
    (n : ℕ) :
    (mkBipolarsBinaryLayer prevR rf tol cth sth n).shape =
      ((prevR.shape.1 : ℤ) - 2 * rf.2, (prevR.shape.2 : ℤ) - 2 * rf.2) ∧
    (mkGanglionsBinaryLayer prevR rf tol cth sth n).shape =
      ((prevR.shape.1 : ℤ) - 2 * rf.2, (prevR.shape.2 : ℤ) - 2 * rf.2) ∧
    (mkSimplePVCBinaryLayer prevG size sub ptol onTh offTh n).shape =
      (prevG.shape.1 - ((size : ℤ) - 1), prevG.shape.2 - ((size : ℤ) - 1)) ∧
    (mkGanglionsBinaryLayer prevR rf tol cth sth n).on_cells.length =
      ((prevR.shape.1 : ℤ) - 2 * rf.2).toNat ∧
    (mkSimplePVCBinaryLayer prevG size sub ptol onTh offTh n).cellsVertical.length =
      (prevG.shape.1 - ((size : ℤ) - 1)).toNat := by
  refine ⟨rfl, rfl, rfl, ?_, ?_⟩ <;>
    simp [mkGanglionsBinaryLayer, mkSimplePVCBinaryLayer, mkGrid]

/-- Pair-state form of `BipolarsBinaryLayer.run`: the source method writes
only its own attributes (`input_`, its cells' `response`/`n_iter` through
their own `run`, `on_response`, `off_response`, `n_iter`) and only reads the
previous layer, so the system step carries the previous layer through. -/
def bipolarsPairRun (s : RodsBinaryLayer × BipolarsBinaryLayer) :
    Option (RodsBinaryLayer × BipolarsBinaryLayer) :=
  match bipolarsBinaryLayerRun s.1 s.2 with
  | none => none
  | some L' => some (s.1, L')

/-- Pair-state form of `SimplePVCBinaryLayer.run` (same reasoning). -/
def simplePVCPairRun (s : GanglionsBinaryLayer × SimplePVCBinaryLayer) :
    Option (GanglionsBinaryLayer × SimplePVCBinaryLayer) :=
  match simplePVCBinaryLayerRun s.1 s.2 with
  | none => none
  | some L' => some (s.1, L')

/-- Claim C10: a downstream layer's `run()` leaves the previous layer
unchanged — the record equality covers every cell's response and iteration
counter, the response grid(s) and the layer's iteration counter. -/
theorem c10_run_reads_only_previous :
    (∀ s : RodsBinaryLayer × BipolarsBinaryLayer,
      (bipolarsPairRun s).isSome = true →
      (bipolarsPairRun s).map (fun p => p.1) = some s.1) ∧
    (∀ s : GanglionsBinaryLayer × SimplePVCBinaryLayer,
      (simplePVCPairRun s).isSome = true →
      (simplePVCPairRun s).map (fun p => p.1) = some s.1) := by
  constructor
  · intro s h
    rcases hr : bipolarsBinaryLayerRun s.1 s.2 with _ | L'
    · rw [bipolarsPairRun, hr] at h
      simp at h
    · rw [bipolarsPairRun, hr]
      simp
  · intro s h
    rcases hr : simplePVCBinaryLayerRun s.1 s.2 with _ | L'
    · rw [simplePVCPairRun, hr] at h
      simp at h
    · rw [simplePVCPairRun, hr]
      simp

/-- Claim C10 witness: concrete layer pairs actually run. -/
theorem c10_run_reads_only_previous_witness :
    ((bipolarsPairRun (mkRodsBinaryLayer (3, 3) 0,
        mkBipolarsBinaryLayer (mkRodsBinaryLayer (3, 3) 0) (0, 1) "constant"
          1 (7 / 10) 0)).isSome = true ∧
     (bipolarsPairRun (mkRodsBinaryLayer (3, 3) 0,
        mkBipolarsBinaryLayer (mkRodsBinaryLayer (3, 3) 0) (0, 1) "constant"
          1 (7 / 10) 0)).map (fun p => p.1) = some (mkRodsBinaryLayer (3, 3) 0)) ∧
    ((simplePVCPairRun (mkGanglionsBinaryLayer (mkRodsBinaryLayer (3, 3) 0)
        (0, 1) "constant" 1 (7 / 10) 0,
        mkSimplePVCBinaryLayer (mkGanglionsBinaryLayer (mkRodsBinaryLayer (3, 3) 0)
          (0, 1) "constant" 1 (7 / 10) 0) 1 "on-center" "constant" 1 0 0)).isSome =
        true ∧
     (simplePVCPairRun (mkGanglionsBinaryLayer (mkRodsBinaryLayer (3, 3) 0)
        (0, 1) "constant" 1 (7 / 10) 0,
        mkSimplePVCBinaryLayer (mkGanglionsBinaryLayer (mkRodsBinaryLayer (3, 3) 0)
          (0, 1) "constant" 1 (7 / 10) 0) 1 "on-center" "constant" 1 0 0)).map
        (fun p => p.1) =
      some (mkGanglionsBinaryLayer (mkRodsBinaryLayer (3, 3) 0) (0, 1) "constant"
        1 (7 / 10) 0)) := by
  refine ⟨⟨?_, ?_⟩, ⟨?_, ?_⟩⟩
  · with_unfolding_all decide
  · exact c10_run_reads_only_previous.1 _ (by with_unfolding_all decide)
  · with_unfolding_all decide
  · exact c10_run_reads_only_previous.2 _ (by with_unfolding_all decide)

end VisualSystem
